import Mathlib

/-!
Verification of the browser-page introspection and element-resolution core of
`langchain_community/tools/playwright`.

The development shallowly embeds:

* the DOM-extraction JavaScript of `extract_dom_tree.py`
  (`isInteractive`, `isVisibleInViewport`, `getSimplifiedAttributes`,
  `getSimplifiedText`, `getInteractionType`, `getSelectorSuggestions`,
  `extractNode`) as pure Lean functions over an explicit DOM model;
* the Python tool bodies of `dragndrop.py`, `input_text.py`, `click.py`,
  `get_elements.py` and `switch_frame.py` as pure functions over a static
  page model, together with a trace of the driver calls each run issues.

Browser-engine facts the source merely consumes (computed style, bounding
rectangles, `innerText`, presence of DOM event-handler properties) are fields
of the model; everything the source computes is computed by the embedding.

String primitives of the host languages (`toLowerCase`, `trim`, `substring`,
`upper`, `replace`, substring tests) are modelled by structurally recursive
functions over the character list of a `String`, with the usual ASCII
semantics; the strings appearing in this program are ASCII.
-/

/-! ## String primitives -/

/-- ASCII lower-casing of one character (JavaScript `toLowerCase`, Python
`lower` on the ASCII strings this program handles). -/
def lowerChar (c : Char) : Char :=
  if 65 ≤ c.toNat && c.toNat ≤ 90 then Char.ofNat (c.toNat + 32) else c

/-- ASCII upper-casing of one character (Python `upper`). -/
def upperChar (c : Char) : Char :=
  if 97 ≤ c.toNat && c.toNat ≤ 122 then Char.ofNat (c.toNat - 32) else c

/-- ASCII lower-casing of a string. -/
def strLower (s : String) : String := ⟨s.data.map lowerChar⟩

/-- ASCII upper-casing of a string. -/
def strUpper (s : String) : String := ⟨s.data.map upperChar⟩

/-- Whitespace test used by `strTrim`. -/
def wsChar (c : Char) : Bool := c == ' ' || c == '\t' || c == '\n' || c == '\r'

/-- `trim`: drop leading and trailing whitespace. -/
def strTrim (s : String) : String :=
  ⟨((s.data.dropWhile wsChar).reverse.dropWhile wsChar).reverse⟩

/-- String length in characters (JavaScript `length` on the ASCII strings
this program handles). -/
def strLen (s : String) : Nat := s.data.length

/-- `substring(0, n)`. -/
def strTake (s : String) (n : Nat) : String := ⟨s.data.take n⟩

/-- One step of `replaceAll` with a character-list pattern; `fuel` bounds the
recursion and is chosen `≥` the subject length at the call site. -/
def replaceAux (pat rep : List Char) : Nat → List Char → List Char
  | _, [] => []
  | 0, l => l
  | fuel + 1, c :: rest =>
    if pat ≠ [] && pat.isPrefixOf (c :: rest) then
      rep ++ replaceAux pat rep fuel (rest.drop (pat.length - 1))
    else
      c :: replaceAux pat rep fuel rest

/-- Python `str.replace(pat, rep)`: replace every (non-overlapping,
left-to-right) occurrence. -/
def strReplace (s pat rep : String) : String :=
  ⟨replaceAux pat.data rep.data s.data.length s.data⟩

/-- Contiguous-substring test over character lists. -/
def subAux (pat : List Char) : List Char → Bool
  | [] => pat.isEmpty
  | c :: rest => pat.isPrefixOf (c :: rest) || subAux pat rest

/-- Python `pat in s` / JavaScript `includes`: contiguous substring test. -/
def containsSub (s pat : String) : Bool := subAux pat.data s.data

/-- Python `str.startswith`. -/
def strStartsWith (s pat : String) : Bool := pat.data.isPrefixOf s.data

/-! ## DOM model for the extraction script of `extract_dom_tree.py` -/

/-- Computed style of an element, as read by `window.getComputedStyle`. -/
structure Style where
  display : String
  visibility : String
  opacity : String
deriving Repr, DecidableEq

/-- Bounding client rectangle of an element, as returned by
`getBoundingClientRect`.  The DOM's `right` is `left + width` and `bottom`
is `top + height`; coordinates are modelled as integers, so the script's
`Math.round` is the identity. -/
structure Rect where
  left : Int
  top : Int
  width : Int
  height : Int
deriving Repr, DecidableEq

/-- Viewport dimensions (`window.innerWidth` / `window.innerHeight`). -/
structure Window where
  innerWidth : Int
  innerHeight : Int
deriving Repr, DecidableEq

/-- Engine-provided data of a DOM element.  `tagName` is stored as the DOM
reports it; the script lowercases it at every use site.  `onclickProp`,
`onchangeProp`, `onsubmitProp` model the element-object event-handler
properties tested by `element.onclick || element.onchange ||
element.onsubmit`; `hasDisabledProp` models the JavaScript
`'disabled' in element` interface test, `checked`, `disabled` and
`valueProp` the corresponding element properties, and `innerText` the
engine-computed rendered text. -/
structure ElementData where
  tagName : String
  attrs : List (String × String)
  style : Style
  rect : Rect
  onclickProp : Bool
  onchangeProp : Bool
  onsubmitProp : Bool
  innerText : String
  checked : Bool
  disabled : Bool
  hasDisabledProp : Bool
  valueProp : String
deriving Repr, DecidableEq

/-- A DOM node: an element with its `childNodes`, a text node, or any other
node kind (comment, processing instruction, ...). -/
inductive DomNode where
  | element (data : ElementData) (children : List DomNode)
  | text (content : String)
  | other
deriving Repr

/-- `element.hasAttribute(name)`. -/
def hasAttr (attrs : List (String × String)) (name : String) : Bool :=
  attrs.any (fun p => p.1 == name)

/-- `element.getAttribute(name)` (`none` models JavaScript `null`). -/
def getAttr (attrs : List (String × String)) (name : String) : Option String :=
  (attrs.find? (fun p => p.1 == name)).map (fun p => p.2)

/-- Tag list of `isInteractive` in the extraction script. -/
def interactiveTags : List String :=
  ["a", "button", "input", "select", "textarea", "option", "label", "form", "summary"]

/-- Attribute list of `isInteractive` in the extraction script. -/
def interactiveAttrs : List String :=
  ["onclick", "onchange", "onsubmit", "role", "tabindex",
   "contenteditable", "href", "data-action"]

/-- ARIA role list of `isInteractive` in the extraction script. -/
def interactiveRoles : List String :=
  ["button", "link", "checkbox", "dialog", "menuitem", "tab", "radio", "combobox", "search"]

/-- `isInteractive(element)` from the extraction script: interactive tag, or
any attribute of the fixed set, or an event-handler property, or an
interactive ARIA role.  Non-element nodes are never passed to it by the
script; the model returns `false` for them. -/
def isInteractive : DomNode → Bool
  | .element data _ =>
    interactiveTags.contains (strLower data.tagName) ||
    interactiveAttrs.any (fun a => hasAttr data.attrs a) ||
    (data.onclickProp || data.onchangeProp || data.onsubmitProp) ||
    (match getAttr data.attrs "role" with
     | some r => interactiveRoles.contains r
     | none => false)
  | _ => false

/-- `isVisibleInViewport(element)` from the extraction script. -/
def isVisibleInViewport (w : Window) : DomNode → Bool
  | .element data _ =>
    if data.style.display == "none" || data.style.visibility == "hidden" ||
        data.style.opacity == "0" then
      false
    else
      data.rect.width > 0 && data.rect.height > 0 &&
      data.rect.top < w.innerHeight && data.rect.top + data.rect.height > 0 &&
      data.rect.left < w.innerWidth && data.rect.left + data.rect.width > 0
  | _ => false

/-- Tags matched by the script's
`node.querySelector('button, a, input, select, textarea')` descendant probe. -/
def formControlTags : List String :=
  ["button", "a", "input", "select", "textarea"]

mutual

/-- Whether a proper descendant element of the node matches the
`'button, a, input, select, textarea'` selector
(`node.querySelector(...)` is non-null). -/
def hasFormControlDescendant : DomNode → Bool
  | .element _ kids => hasFormControlInList kids
  | _ => false
termination_by structural n => n

/-- Descendant probe over a `childNodes` list. -/
def hasFormControlInList : List DomNode → Bool
  | [] => false
  | k :: rest =>
    (match k with
     | .element data _ => formControlTags.contains (strLower data.tagName)
     | _ => false) ||
    hasFormControlDescendant k || hasFormControlInList rest
termination_by structural l => l

end

mutual

/-- `node.textContent`: concatenation of all descendant text-node data. -/
def textContent : DomNode → String
  | .element _ kids => textContentList kids
  | .text c => c
  | .other => ""
termination_by structural n => n

/-- `textContent` over a `childNodes` list. -/
def textContentList : List DomNode → String
  | [] => ""
  | k :: rest => textContent k ++ textContentList rest
termination_by structural l => l

end

/-- A simplified-attribute value: the script stores strings for attribute
values and raw booleans for `checked` / `disabled` state. -/
inductive AttrVal where
  | str (s : String)
  | bool (b : Bool)
deriving Repr, DecidableEq

/-- Attribute priority list of `getSimplifiedAttributes`. -/
def priorityAttrs : List String :=
  ["id", "name", "class", "type", "role", "aria-label",
   "href", "value", "placeholder", "data-testid", "title",
   "alt", "src", "tabindex", "disabled"]

/-- Value truncation of `getSimplifiedAttributes`:
`value.length > 50 ? value.substring(0, 50) + '...' : value`. -/
def truncAttr (value : String) : String :=
  if strLen value > 50 then strTake value 50 ++ "..." else value

/-- `getSimplifiedAttributes(element)` from the extraction script. -/
def getSimplifiedAttributes (node : DomNode) : List (String × AttrVal) :=
  match node with
  | .element data _ =>
    let base := priorityAttrs.foldl (fun acc attr =>
      match getAttr data.attrs attr with
      | some value => acc ++ [(attr, AttrVal.str (truncAttr value))]
      | none => acc) []
    if isInteractive node then
      let tag := strLower data.tagName
      let withState :=
        if tag == "input" then
          let ty := (getAttr data.attrs "type").map strLower
          if ty == some "checkbox" || ty == some "radio" then
            base ++ [("checked", AttrVal.bool data.checked)]
          else if (match ty with
                   | some t => ["text", "search", "number", "email", "password"].contains t
                   | none => false) || tag == "textarea" then
            if data.valueProp ≠ "" then
              base ++ [("value", AttrVal.str
                (if strLen data.valueProp > 20 then strTake data.valueProp 20 ++ "..."
                 else data.valueProp))]
            else base
          else base
        else base
      if data.hasDisabledProp then
        withState ++ [("disabled", AttrVal.bool data.disabled)]
      else withState
    else base
  | _ => []

/-- `getSimplifiedText(element)` from the extraction script:
trimmed `innerText`, `null` when empty, truncated at 100 characters. -/
def getSimplifiedText (node : DomNode) : Option String :=
  match node with
  | .element data _ =>
    let t := strTrim data.innerText
    if t == "" then none
    else some (if strLen t > 100 then strTake t 100 ++ "..." else t)
  | _ => none

/-- `getInteractionType(element)` from the extraction script. -/
def getInteractionType (node : DomNode) : String :=
  match node with
  | .element data _ =>
    let tagName := strLower data.tagName
    let role := getAttr data.attrs "role"
    let ty := (getAttr data.attrs "type").map strLower
    if tagName == "a" || role == some "link" then "link"
    else if tagName == "button" || role == some "button" then "button"
    else if tagName == "input" &&
        (match ty with
         | some t => ["text", "search", "number", "email", "password"].contains t
         | none => false) then "input"
    else if tagName == "input" && ty == some "checkbox" then "checkbox"
    else if tagName == "input" && ty == some "radio" then "radio"
    else if tagName == "input" &&
        (match ty with
         | some t => ["submit", "button"].contains t
         | none => false) then "button"
    else if tagName == "textarea" then "input"
    else if tagName == "select" || role == some "combobox" then "select"
    else if data.onclickProp || (getAttr data.attrs "onclick").isSome then "clickable"
    else "interactive"
  | _ => "interactive"

/-- `getSelectorSuggestions(element)` from the extraction script. -/
def getSelectorSuggestions (node : DomNode) : List String :=
  match node with
  | .element data _ =>
    let tagName := strLower data.tagName
    let s1 : List String :=
      match getAttr data.attrs "id" with
      | some i => if i ≠ "" then ["#" ++ i] else []
      | none => []
    let s2 : List String :=
      match getAttr data.attrs "name" with
      | some n => [tagName ++ "[name=\"" ++ n ++ "\"]"]
      | none => []
    let s3 : List String :=
      match getAttr data.attrs "data-testid" with
      | some t => ["[data-testid=\"" ++ t ++ "\"]"]
      | none => []
    let s4 : List String :=
      if (tagName == "button" || tagName == "a") && strTrim data.innerText ≠ "" then
        let buttonText := strTrim data.innerText
        if strLen buttonText < 20 then
          [tagName ++ ":has-text(\"" ++ buttonText ++ "\")"]
        else []
      else []
    let s5 : List String :=
      if tagName == "input" then
        match getAttr data.attrs "type" with
        | some t => ["input[type=\"" ++ t ++ "\"]"]
        | none => []
      else []
    (s1 ++ s2 ++ s3 ++ s4 ++ s5).take 3
  | _ => []

/-- `position` payload recorded by `extractNode` for in-viewport nodes. -/
structure Position where
  x : Int
  y : Int
  width : Int
  height : Int
  inViewport : Bool
deriving Repr, DecidableEq

/-- A node of the tree produced by `extractNode`: an element summary, a kept
text fragment (`{type:'text', ...}`), or a truncation marker
(`{type:'truncated', message: omitted + " more children omitted..."}`,
whose numeric `omitted` payload is modelled directly). -/
inductive ExtractedNode where
  | elem (tag : String) (attrs : List (String × AttrVal)) (text : Option String)
      (position : Option Position) (interactive : Bool)
      (interactionType : Option String) (selectors : List String)
      (children : List ExtractedNode)
  | textFrag (content : String)
  | truncated (omitted : Int)
deriving Repr

/-- Landmark tags of the extraction script's viewport-pruning exemption. -/
def landmarkTags : List String := ["header", "nav", "footer", "main"]

/-- Landmark ARIA roles of the extraction script's viewport-pruning
exemption. -/
def landmarkRoles : List String := ["navigation", "banner", "main", "contentinfo"]

/-- Tags skipped outright at `depth > 1` by the extraction script. -/
def deepSkipTags : List String :=
  ["style", "svg", "script", "noscript", "path", "link", "meta"]

/-- Per-depth children cap of the extraction script:
`depth === 0 ? 100 : depth === 1 ? 30 : depth === 2 ? 20 : 10`. -/
def childCap (depth : Nat) : Nat :=
  if depth == 0 then 100 else if depth == 1 then 30 else if depth == 2 then 20 else 10

/-- `element.children`: the element children only (used by the script's
direct-child interactivity probe for `div`/`span`). -/
def elementChildren (kids : List DomNode) : List DomNode :=
  kids.filter (fun k => match k with | .element _ _ => true | _ => false)

mutual

/-- `extractNode(node, depth, maxDepth)` from the extraction script of
`extract_dom_tree.py` (lines 175-322): depth gate, text-node handling,
viewport pruning with the interactive / form-control-descendant / landmark
exemptions, the `depth > 1` slimming rules, and the element summary with
capped, truncation-marked children. -/
def extractNode (w : Window) (node : DomNode) (depth : Nat) (maxDepth : Nat) :
    Option ExtractedNode :=
  if depth > maxDepth then none
  else
    match node with
    | .text content =>
      let t := strTrim content
      if t ≠ "" && strLen t > 3 && depth ≤ 2 then
        some (.textFrag (if strLen t > 50 then strTake t 50 ++ "..." else t))
      else none
    | .other => none
    | .element data kids =>
      if !isVisibleInViewport w (.element data kids) &&
          !isInteractive (.element data kids) &&
          !hasFormControlDescendant (.element data kids) &&
          !landmarkTags.contains (strLower data.tagName) &&
          !(match getAttr data.attrs "role" with
            | some r => landmarkRoles.contains r
            | none => false) then
        none
      else if depth > 1 && deepSkipTags.contains (strLower data.tagName) then
        none
      else if depth > 1 &&
          (strLower data.tagName == "div" || strLower data.tagName == "span") &&
          !isInteractive (.element data kids) &&
          !(elementChildren kids).any (fun c => isInteractive c) &&
          strLen (strTrim (textContent (.element data kids))) < 5 then
        none
      else
        let self := DomNode.element data kids
        some (.elem (strLower data.tagName)
          (getSimplifiedAttributes self)
          (getSimplifiedText self)
          (if isVisibleInViewport w self && (isInteractive self || depth ≤ 1) then
            some ⟨data.rect.left, data.rect.top, data.rect.width, data.rect.height, true⟩
          else none)
          (isInteractive self)
          (if isInteractive self then some (getInteractionType self) else none)
          (if isInteractive self then getSelectorSuggestions self else [])
          (extractChildren w kids kids.length (childCap depth) 0 depth maxDepth))
termination_by structural node

/-- The children loop of `extractNode`: iterate `childNodes`, pushing
non-null extractions and counting them; once the count reaches the cap and a
child remains, push one truncation marker recording
`childNodes.length - maxChildren` and stop. -/
def extractChildren (w : Window) (kids : List DomNode) (totalLen : Nat)
    (maxChildren : Nat) (count : Nat) (depth : Nat) (maxDepth : Nat) :
    List ExtractedNode :=
  match kids with
  | [] => []
  | k :: rest =>
    if count ≥ maxChildren then
      [.truncated ((totalLen : Int) - (maxChildren : Int))]
    else
      match extractNode w k (depth + 1) maxDepth with
      | some r => r :: extractChildren w rest totalLen maxChildren (count + 1) depth maxDepth
      | none => extractChildren w rest totalLen maxChildren count depth maxDepth
termination_by structural kids

end

/-- A neutral window used by concrete examples. -/
def win0 : Window := ⟨1000, 800⟩

/-- Element data of a plain visible node with the given tag. -/
def plainVisible (tag : String) : ElementData :=
  { tagName := tag
    attrs := []
    style := ⟨"block", "visible", "1"⟩
    rect := ⟨0, 0, 200, 100⟩
    onclickProp := false
    onchangeProp := false
    onsubmitProp := false
    innerText := ""
    checked := false
    disabled := false
    hasDisabledProp := false
    valueProp := "" }

/-! ## Static page model for the Playwright tools

The Python tools call into the Playwright driver against a live page.  The
model is a static page: each CSS selector is mapped to its document-order
list of matching elements, each carrying the engine facts the driver
consults (visibility for `is_visible` and the `>> visible=1` engine filter,
actionability for whether a `click`/`drag_to` primary call succeeds within
its timeout, and the navigation a click triggers, if any).  Each tool run
returns its Python result string together with the trace of driver calls it
issued. -/

/-- An element as seen through Playwright locators. -/
structure PwElement where
  visible : Bool
  actionable : Bool
  navigatesTo : Option String
deriving Repr, DecidableEq

/-- Element handed back by `List.getD` at guarded indices (never inspected,
because every access is guarded by an index-bound check). -/
def defaultPwElement : PwElement := ⟨false, false, none⟩

/-- A static page: document-order matches per CSS selector string. -/
structure PwPage where
  matchList : List (String × List PwElement)
deriving Repr, DecidableEq

/-- `document` matches of a selector (empty when the selector is unknown to
the page). -/
def PwPage.query (p : PwPage) (sel : String) : List PwElement :=
  match p.matchList.find? (fun e => e.1 == sel) with
  | some e => e.2
  | none => []

/-- One driver call.  `pointerMove`/`pointerDown`/`pointerUp` and
`dispatchClickEvent` are driver primitives none of the embedded tools emit;
they are present so that "never issued as a pointer sequence / synthetic
event" is expressible about a trace. -/
inductive DriverCall where
  | waitForLoadState (state : String)
  | waitForSelector (sel : String)
  | scrollIntoView (sel : String) (nth : Nat)
  | isVisibleCheck (sel : String) (nth : Nat)
  | dragTo (srcSel : String) (srcNth : Nat) (tgtSel : String) (tgtNth : Nat)
  | pointerMove (sel : String) (nth : Nat)
  | pointerDown
  | pointerUp
  | pageClick (sel : String) (force : Bool)
  | elemClick (sel : String) (nth : Nat)
  | dispatchClickEvent (sel : String)
  | typeText (sel : String) (nth : Nat) (text : String)
  | waitMs (ms : Nat)
deriving Repr, DecidableEq

/-- Result of one tool run: the Python return string and the driver calls
issued on the way. -/
structure RunResult where
  message : String
  trace : List DriverCall
deriving Repr, DecidableEq

/-- Python `nth or 0` on an optional index (`None` and `0` both give `0`). -/
def orZero : Option Nat → Nat
  | none => 0
  | some k => k

/-- Decimal digits of a positive number (`fuel ≥ n` at call sites). -/
def natDigsAux : Nat → Nat → List Char
  | 0, _ => []
  | _ + 1, 0 => []
  | fuel + 1, n => natDigsAux fuel (n / 10) ++ [Char.ofNat (48 + n % 10)]

/-- Decimal rendering of a natural number. -/
def natRepr (n : Nat) : String :=
  if n == 0 then "0" else ⟨natDigsAux n n⟩

/-- Python string interpolation of an `Optional[int]`:
`None` prints as `None`. -/
def pyOptRepr : Option Nat → String
  | none => "None"
  | some k => natRepr k

/-! ### `DragAndDropTool._run`  (`dragndrop.py` lines 25-71)

`page.wait_for_selector` waits (default state `visible`) for a matching
visible element, timing out otherwise; `Locator.nth(k).
scroll_into_view_if_needed` times out when the locator resolves to no `k`-th
element; `drag_to` is the single driver-level drag primitive and times out
unless both endpoints are visible.  A Playwright `TimeoutError` anywhere in
the body is caught and reported as the timeout message. -/

/-- Timeout message of `DragAndDropTool`. -/
def dragTimeoutMsg (srcSel tgtSel : String) : String :=
  "Timeout waiting for element(s) \x27" ++ srcSel ++ "\x27 or \x27" ++ tgtSel ++ "\x27"

/-- Success message of `DragAndDropTool`. -/
def draggedMsg (srcSel : String) (srcNth : Option Nat) (tgtSel : String)
    (tgtNth : Option Nat) : String :=
  "Dragged element \x27" ++ srcSel ++ "\x27 (nth=" ++ pyOptRepr srcNth ++ ") to \x27" ++
    tgtSel ++ "\x27 (nth=" ++ pyOptRepr tgtNth ++ ")"

/-- `DragAndDropTool._run`. -/
def dragAndDropRun (page : PwPage) (sourceSelector targetSelector : String)
    (sourceNth targetNth : Option Nat) (visibleOnly : Bool) : RunResult :=
  let t0 : List DriverCall := [.waitForLoadState "load"]
  let srcMatches := page.query sourceSelector
  let tgtMatches := page.query targetSelector
  -- page.wait_for_selector(source_selector, timeout=...)
  if !srcMatches.any (fun e => e.visible) then
    ⟨dragTimeoutMsg sourceSelector targetSelector, t0 ++ [.waitForSelector sourceSelector]⟩
  else
  let t1 := t0 ++ [.waitForSelector sourceSelector]
  -- page.wait_for_selector(target_selector, timeout=...)
  if !tgtMatches.any (fun e => e.visible) then
    ⟨dragTimeoutMsg sourceSelector targetSelector, t1 ++ [.waitForSelector targetSelector]⟩
  else
  let t2 := t1 ++ [.waitForSelector targetSelector]
  -- if src_locator.count() == 0 / tgt_locator.count() == 0
  if srcMatches.length == 0 then
    ⟨"No source element found for selector: " ++ sourceSelector, t2⟩
  else if tgtMatches.length == 0 then
    ⟨"No target element found for selector: " ++ targetSelector, t2⟩
  else
  let sk := orZero sourceNth
  let tk := orZero targetNth
  -- src.scroll_into_view_if_needed(timeout=...): times out when nth ≥ count
  if srcMatches.length ≤ sk then
    ⟨dragTimeoutMsg sourceSelector targetSelector, t2⟩
  else
  let t3 := t2 ++ [.scrollIntoView sourceSelector sk]
  if tgtMatches.length ≤ tk then
    ⟨dragTimeoutMsg sourceSelector targetSelector, t3⟩
  else
  let t4 := t3 ++ [.scrollIntoView targetSelector tk]
  let srcEl := srcMatches.getD sk defaultPwElement
  let tgtEl := tgtMatches.getD tk defaultPwElement
  -- if self.visible_only and (not src.is_visible(...) or not tgt.is_visible(...))
  if visibleOnly && !srcEl.visible then
    ⟨"Element found but not visible. Try disabling visible_only.",
      t4 ++ [.isVisibleCheck sourceSelector sk]⟩
  else if visibleOnly && !tgtEl.visible then
    ⟨"Element found but not visible. Try disabling visible_only.",
      t4 ++ [.isVisibleCheck sourceSelector sk, .isVisibleCheck targetSelector tk]⟩
  else
  let t5 := t4 ++ (if visibleOnly then
    [.isVisibleCheck sourceSelector sk, .isVisibleCheck targetSelector tk] else [])
  -- src.drag_to(tgt, timeout=...)
  if !srcEl.visible || !tgtEl.visible then
    ⟨dragTimeoutMsg sourceSelector targetSelector,
      t5 ++ [.dragTo sourceSelector sk targetSelector tk]⟩
  else
    ⟨draggedMsg sourceSelector sourceNth targetSelector targetNth,
      t5 ++ [.dragTo sourceSelector sk targetSelector tk]⟩

/-! ### `InputTextTool._run`  (`input_text.py` lines 37-72) -/

/-- `InputTextTool._run`. -/
def inputTextRun (page : PwPage) (selector text : String) (nth : Option Nat)
    (visibleOnly : Bool) : RunResult :=
  let t0 : List DriverCall := [.waitForLoadState "load"]
  let ms := page.query selector
  -- page.wait_for_selector(selector, timeout=...)
  if !ms.any (fun e => e.visible) then
    ⟨"Timeout waiting for element \x27" ++ selector ++ "\x27",
      t0 ++ [.waitForSelector selector]⟩
  else
  let t1 := t0 ++ [.waitForSelector selector]
  -- if locator.count() == 0
  if ms.length == 0 then
    ⟨"No element found for selector: " ++ selector, t1⟩
  else
  let k := orZero nth
  -- element.scroll_into_view_if_needed(timeout=...): times out when nth ≥ count
  if ms.length ≤ k then
    ⟨"Timeout waiting for element \x27" ++ selector ++ "\x27", t1⟩
  else
  let t2 := t1 ++ [.scrollIntoView selector k]
  let el := ms.getD k defaultPwElement
  -- if not element.is_visible(...) and self.visible_only
  let t3 := t2 ++ [.isVisibleCheck selector k]
  if !el.visible && visibleOnly then
    ⟨"Element found but not visible. Try disabling visible_only.", t3⟩
  else
  -- element.click(); element.type(text, delay=50)
  if !el.actionable then
    ⟨"Timeout waiting for element \x27" ++ selector ++ "\x27", t3 ++ [.elemClick selector k]⟩
  else
    ⟨"Entered text into element \x27" ++ selector ++ "\x27 (nth=" ++ pyOptRepr nth ++ ")",
      t3 ++ [.elemClick selector k, .typeText selector k text]⟩

/-! ### `ClickTool._run`  (`click.py` lines 54-138)

`_selector_effective` appends the Playwright engine filter `>> visible=1`
when `visible_only` is set; the model interprets a locator on that effective
selector as the visible-filtered match list.  `Locator.first.count()` and
`is_visible` do not wait; `page.click` times out unless the target is
actionable or `force` is set; with `wait_for_navigation`, both a click
timeout and a navigation timeout are caught by the surrounding
`except PlaywrightTimeoutError` of the navigation block. -/

/-- `ClickTool._selector_effective`. -/
def selectorEffective (selector : String) (visibleOnly : Bool) : String :=
  if !visibleOnly then selector else selector ++ " >> visible=1"

/-- Matches of `page.locator(selector_effective)`: the `>> visible=1` suffix
filters to visible elements. -/
def queryEffective (page : PwPage) (selector : String) (visibleOnly : Bool) :
    List PwElement :=
  if visibleOnly then (page.query selector).filter (fun e => e.visible)
  else page.query selector

/-- `ClickTool._run`. -/
def clickRun (page : PwPage) (selector : String) (force waitForNavigation : Bool)
    (waitForTimeout : Nat) (visibleOnly : Bool) : RunResult :=
  let eff := selectorEffective selector visibleOnly
  let es := queryEffective page selector visibleOnly
  -- element = page.locator(selector_effective).first; count = element.count()
  if es.length == 0 then
    ⟨"Element \x27" ++ selector ++ "\x27 not found", []⟩
  else
  let el := es.getD 0 defaultPwElement
  -- is_visible = element.is_visible(timeout=...)
  let t1 : List DriverCall := [.isVisibleCheck eff 0]
  if !el.visible && !force && visibleOnly then
    ⟨"Element \x27" ++ selector ++ "\x27 found but not visible. Use force=True to click it.",
      t1⟩
  else if waitForNavigation then
    -- with page.expect_navigation(...): page.click(selector_effective, force=force, ...)
    if !force && !el.actionable then
      ⟨"Clicked element \x27" ++ selector ++ "\x27 but navigation timed out",
        t1 ++ [.pageClick eff force]⟩
    else
      match el.navigatesTo with
      | some url =>
        ⟨"Clicked element \x27" ++ selector ++ "\x27 and navigated to " ++ url,
          t1 ++ [.pageClick eff force] ++
            (if waitForTimeout > 0 then [.waitMs waitForTimeout] else [])⟩
      | none =>
        ⟨"Clicked element \x27" ++ selector ++ "\x27 but navigation timed out",
          t1 ++ [.pageClick eff force]⟩
  else
    -- page.click(selector_effective, force=force, timeout=...)
    if !force && !el.actionable then
      ⟨"Unable to click element \x27" ++ selector ++ "\x27: element not clickable",
        t1 ++ [.pageClick eff force]⟩
    else
      ⟨"Clicked element \x27" ++ selector ++ "\x27",
        t1 ++ [.pageClick eff force] ++
          (if waitForTimeout > 0 then [.waitMs waitForTimeout] else [])⟩

/-! ### `GetElementsTool._run`  (`get_elements.py` lines 268-317)

`_get_elements` evaluates an in-page script that maps every
`document.querySelectorAll(selector)` match to a summary record; the model
returns the match list itself, since the `_run` control flow consulted by
the claims depends only on which selector's list is returned and whether it
is empty.  The result is the JSON payload `{"elements": ..., "count": ...}`
or, on the internal alternate-selector retry, `{"note": ..., "elements":
...}`; the model keeps the payload structured. -/

/-- Outcome of `GetElementsTool._run`. -/
inductive GetElementsOutcome where
  | elements (results : List PwElement) (count : Nat)
  | altElements (origSel altSel : String) (results : List PwElement)
deriving Repr, DecidableEq

/-- The fixed alternate search-box selectors of `GetElementsTool._run`. -/
def commonSelectors : List String :=
  ["input[type=\x27search\x27]",
   "input[name=\x27q\x27]",
   "input[placeholder*=\x27Search\x27 i]",
   "input.search",
   ".searchbox input",
   "textarea[name=\x27q\x27]"]

/-- The alternate-selector loop: skip the original selector, return the
first alternative with a non-empty match list. -/
def findAltLoop (page : PwPage) (selector : String) :
    List String → Option (String × List PwElement)
  | [] => none
  | alt :: rest =>
    if alt == selector then findAltLoop page selector rest
    else
      let r := page.query alt
      if r.isEmpty then findAltLoop page selector rest
      else some (alt, r)

/-- `GetElementsTool._run`. -/
def getElementsRun (page : PwPage) (selector : String) : GetElementsOutcome :=
  let results := page.query selector
  if results.isEmpty &&
      (containsSub (strLower selector) "search" || containsSub (strLower selector) "q") then
    match findAltLoop page selector commonSelectors with
    | some (alt, rs) => .altElements selector alt rs
    | none => .elements results results.length
  else
    .elements results results.length

/-! ### `SwitchFrameTool._handle_switch`  (`switch_frame.py` lines 41-123)

The frame-context slot is the `_lc_active_frame` attribute stapled onto the
page object, modelled as an `Option FrameRef` threaded through the call.
`page.frame(name=...)` is the driver-native lookup by frame name;
`page.query_selector(sel)` yields at most one element per selector, for
which the tool then checks `tagName === 'iframe'` and fetches
`content_frame()`.  (In the synchronous wrapper the `query_selector` calls
pass an unsupported `timeout` keyword, which the enclosing
`except ... continue` absorbs like any other per-selector failure; the
model's per-selector environment covers the attempts that reach the
driver, as in the asynchronous path, lines 166-203.) -/

/-- Abstract handle to a frame's content document. -/
structure FrameRef where
  id : Nat
deriving Repr, DecidableEq

/-- An element returned by `query_selector`, as far as the switch logic
inspects it. -/
structure IframeEl where
  isIframe : Bool
  contentFrame : Option FrameRef
deriving Repr, DecidableEq

/-- The driver environment of one switch call: frame-name lookup table and
per-selector `query_selector` results. -/
structure FramePage where
  frameByName : List (String × FrameRef)
  queryResult : List (String × IframeEl)
deriving Repr, DecidableEq

/-- `page.frame(name=...)`. -/
def FramePage.frame (p : FramePage) (name : String) : Option FrameRef :=
  (p.frameByName.find? (fun e => e.1 == name)).map (fun e => e.2)

/-- `page.query_selector(sel)`. -/
def FramePage.querySel (p : FramePage) (sel : String) : Option IframeEl :=
  (p.queryResult.find? (fun e => e.1 == sel)).map (fun e => e.2)

/-- The ordered selector guesses of `_handle_switch`. -/
def potentialSelectors (s : String) : List String :=
  [s,
   "iframe[name=\x27" ++ s ++ "\x27]",
   "iframe#" ++ strReplace s "#" ""] ++
  (if strStartsWith s "." && !strStartsWith s "iframe." then ["iframe" ++ s] else [])

/-- The selector loop of `_handle_switch`: first guess resolving to an
actual `<iframe>` element wins; non-iframe matches are disposed and the
loop continues. -/
def findIframeLoop (p : FramePage) : List String → Option (String × IframeEl)
  | [] => none
  | sel :: rest =>
    match p.querySel sel with
    | some el => if el.isIframe then some (sel, el) else findIframeLoop p rest
    | none => findIframeLoop p rest

/-- Result of one `_handle_switch` call: the resolved frame (if any), the
returned message, and the `_lc_active_frame` slot after the call. -/
structure SwitchResult where
  resolved : Option FrameRef
  message : String
  active : Option FrameRef
deriving Repr, DecidableEq

/-- `SwitchFrameTool._handle_switch`. -/
def handleSwitch (p : FramePage) (active : Option FrameRef) (nameOrSelector : String) :
    SwitchResult :=
  -- if name_or_selector.upper() in ["PARENT_FRAME", "DEFAULT_CONTENT"]
  if strUpper nameOrSelector == "PARENT_FRAME" ||
      strUpper nameOrSelector == "DEFAULT_CONTENT" then
    ⟨none, "Switched back to the main page content.", none⟩
  else
    -- 1. try by name attribute using page.frame()
    match p.frame nameOrSelector with
    | some fr =>
      ⟨some fr,
        "Successfully switched to frame \x27" ++ nameOrSelector ++
          "\x27 (by name attribute \x27" ++ nameOrSelector ++ "\x27).",
        some fr⟩
    | none =>
      -- 2. try the ordered CSS selector guesses
      match findIframeLoop p (potentialSelectors nameOrSelector) with
      | some (sel, el) =>
        match el.contentFrame with
        | some fr =>
          ⟨some fr,
            "Successfully switched to frame \x27" ++ nameOrSelector ++
              "\x27 (by selector \x27" ++ sel ++ "\x27).",
            some fr⟩
        | none =>
          ⟨none,
            "Found iframe element (by selector \x27" ++ sel ++
              "\x27), but could not access its content frame.",
            active⟩
      | none =>
        ⟨none,
          "Could not find an iframe element matching \x27" ++ nameOrSelector ++
            "\x27 (tried various patterns).",
          active⟩

/-! ## Helper observations on extracted trees and traces -/

/-- Whether an extracted entry is a truncation marker. -/
def isTruncMarker : ExtractedNode → Bool
  | .truncated _ => true
  | _ => false

/-- Number of truncation markers in a `children` list. -/
def countTrunc (l : List ExtractedNode) : Nat :=
  l.countP (fun e => isTruncMarker e)

/-- Number of real (non-marker) entries in a `children` list. -/
def countNonTrunc (l : List ExtractedNode) : Nat :=
  l.countP (fun e => !isTruncMarker e)

/-- `childNodes.length` of a DOM node. -/
def domChildCount : DomNode → Nat
  | .element _ kids => kids.length
  | _ => 0

mutual

/-- Whether the extracted tree contains an element summary with the given
(lower-case) tag. -/
def treeHasTag (t : String) : ExtractedNode → Bool
  | .elem tag _ _ _ _ _ _ ch => tag == t || treeHasTagList t ch
  | _ => false
termination_by structural n => n

/-- `treeHasTag` over a children list. -/
def treeHasTagList (t : String) : List ExtractedNode → Bool
  | [] => false
  | k :: rest => treeHasTag t k || treeHasTagList t rest
termination_by structural l => l

end

mutual

/-- Whether the DOM tree contains an element whose lower-cased tag is `t`. -/
def domHasTag (t : String) : DomNode → Bool
  | .element data kids => strLower data.tagName == t || domHasTagList t kids
  | _ => false
termination_by structural n => n

/-- `domHasTag` over a `childNodes` list. -/
def domHasTagList (t : String) : List DomNode → Bool
  | [] => false
  | k :: rest => domHasTag t k || domHasTagList t rest
termination_by structural l => l

end

/-- Whether a driver call is a pointer-path primitive (move/press/release). -/
def isPointerCall : DriverCall → Bool
  | .pointerMove _ _ => true
  | .pointerDown => true
  | .pointerUp => true
  | _ => false

/-- Whether a driver call dispatches a synthetic event. -/
def isDispatchCall : DriverCall → Bool
  | .dispatchClickEvent _ => true
  | _ => false

/-- Whether a driver call is the driver-level atomic drag primitive. -/
def isDragToCall : DriverCall → Bool
  | .dragTo _ _ _ _ => true
  | _ => false

/-! ## Concrete pages and documents used by counterexamples and witnesses -/

/-- Element data of a hidden (`display:none`) node with the given tag. -/
def plainHidden (tag : String) : ElementData :=
  { plainVisible tag with style := ⟨"none", "visible", "1"⟩ }

/-- A `section` element at depth 3 whose 11 child nodes are all short text
nodes (each is skipped by the extractor, so the children counter never
reaches the cap of 10 even though `childNodes.length = 11 > 10`). -/
def sectionWithElevenTextKids : DomNode :=
  .element (plainVisible "section") (List.replicate 11 (.text "ab"))

/-- A visible `body` whose only child is a hidden `div` (no interactive
descendant) wrapping a `footer` landmark. -/
def bodyWithBuriedFooter : DomNode :=
  .element (plainVisible "body")
    [.element (plainHidden "div") [.element (plainHidden "footer") []]]

/-- A visible, actionable element that triggers no navigation. -/
def pwVisible : PwElement := ⟨true, true, none⟩

/-- A visible element that is never actionable (e.g. permanently covered by
an overlay), so a non-forced `page.click` times out on it. -/
def pwStuck : PwElement := ⟨true, false, none⟩

/-- An element present in the document but not visible. -/
def pwHidden : PwElement := ⟨false, true, none⟩

/-- Page for the drag scenarios: the source selector matches two visible
elements, the target selector one. -/
def dragPage : PwPage :=
  ⟨[("#src", [pwVisible, pwVisible]), ("#tgt", [pwVisible])]⟩

/-- Page with a single visible but non-actionable button. -/
def stuckClickPage : PwPage := ⟨[("#btn", [pwStuck])]⟩

/-- Page with a single present-but-invisible element. -/
def hiddenClickPage : PwPage := ⟨[("#hidden", [pwHidden])]⟩

/-- Page for the `get_elements` retry scenario: nothing matches
`input.search`, one element matches `input[type='search']`. -/
def searchRetryPage : PwPage :=
  ⟨[("input[type=\x27search\x27]", [pwVisible])]⟩

/-- Frame-switch environment whose selector `#frame1` resolves to an iframe
element with an inaccessible content document. -/
def crossOriginFramePage : FramePage :=
  ⟨[], [("#frame1", ⟨true, none⟩)]⟩

/-- Frame-switch environment with one named frame and one selector-reachable
iframe, used by witnesses. -/
def namedFramePage : FramePage :=
  ⟨[("menu", ⟨3⟩)], [("#frame1", ⟨true, some ⟨4⟩⟩)]⟩

/-! ## Claims about `switch_frame.py` -/

/-- C8: a frame switch that resolves an iframe element whose content
document is inaccessible returns the distinguishable
"could not access its content frame" outcome and leaves the active frame
context exactly as it was. -/
theorem switchFrame_inaccessible_content_keeps_context
    (p : FramePage) (active : Option FrameRef) (s sel : String) (el : IframeEl)
    (h0 : (strUpper s == "PARENT_FRAME" || strUpper s == "DEFAULT_CONTENT") = false)
    (h1 : p.frame s = none)
    (h2 : findIframeLoop p (potentialSelectors s) = some (sel, el))
    (h3 : el.contentFrame = none) :
    handleSwitch p active s =
      ⟨none,
       "Found iframe element (by selector \x27" ++ sel ++
         "\x27), but could not access its content frame.",
       active⟩ := by
  unfold handleSwitch
  simp only [h0, h1, h2, h3, Bool.false_eq_true, if_false]

/-- Witness for C8: a concrete cross-origin iframe, switched to from an
in-frame context, reports the distinguishable error and keeps that
context. -/
theorem switchFrame_inaccessible_content_keeps_context_witness :
    handleSwitch crossOriginFramePage (some ⟨7⟩) "#frame1" =
      ⟨none,
       "Found iframe element (by selector \x27#frame1\x27), but could not access its content frame.",
       some ⟨7⟩⟩ :=
  switchFrame_inaccessible_content_keeps_context
    crossOriginFramePage (some ⟨7⟩) "#frame1" "#frame1" ⟨true, none⟩ rfl rfl rfl rfl

/-- C9: switching to either sentinel ("DEFAULT_CONTENT" or "PARENT_FRAME")
resets the active context to the top-level document and reports success, for
every prior context, including as a no-op when already at top level. -/
theorem switchFrame_sentinel_resets (p : FramePage) (active : Option FrameRef) :
    handleSwitch p active "DEFAULT_CONTENT" =
      ⟨none, "Switched back to the main page content.", none⟩ ∧
    handleSwitch p active "PARENT_FRAME" =
      ⟨none, "Switched back to the main page content.", none⟩ :=
  ⟨rfl, rfl⟩

/-- C10: the sentinel comparison upper-cases its input, so any string whose
upper-casing equals a sentinel resets to the top-level document exactly as
the canonical sentinel does. -/
theorem switchFrame_sentinel_case_insensitive (p : FramePage) (active : Option FrameRef)
    (s : String)
    (h : strUpper s = "PARENT_FRAME" ∨ strUpper s = "DEFAULT_CONTENT") :
    handleSwitch p active s =
      ⟨none, "Switched back to the main page content.", none⟩ := by
  unfold handleSwitch
  rcases h with h | h <;> simp [h]

/-- Witness for C10: the lower-case string "default_content" resets to the
top-level document from an in-frame context. -/
theorem switchFrame_sentinel_case_insensitive_witness :
    handleSwitch namedFramePage (some ⟨3⟩) "default_content" =
      ⟨none, "Switched back to the main page content.", none⟩ :=
  switchFrame_sentinel_case_insensitive namedFramePage (some ⟨3⟩) "default_content"
    (Or.inr rfl)

/-! ## Claims about `get_elements.py` and `click.py` outcomes -/

/-- C6 (amended): `get_elements` returns its zero-match outcome without
trying any alternate descriptor only when the selector does not contain
"search" or "q"; the general statement of "no internal retry" fails, see
the counterexample. -/
theorem getElements_empty_no_retry (page : PwPage) (sel : String)
    (h1 : page.query sel = [])
    (h2 : containsSub (strLower sel) "search" = false)
    (h3 : containsSub (strLower sel) "q" = false) :
    getElementsRun page sel = .elements [] 0 := by
  unfold getElementsRun
  simp [h1, h2, h3]

/-- Witness for C6: a zero-match selector mentioning neither "search" nor
"q" yields the plain empty outcome. -/
theorem getElements_empty_no_retry_witness :
    getElementsRun ⟨[]⟩ "div.banner" = .elements [] 0 :=
  getElements_empty_no_retry ⟨[]⟩ "div.banner" rfl rfl rfl

/-- Counterexample for C6 as stated: when `input.search` matches nothing,
`_run` internally retries the fixed alternate search selectors and returns
the first alternative's elements instead of the zero-match outcome. -/
theorem getElements_search_retry_cex :
    getElementsRun searchRetryPage "input.search" =
      .altElements "input.search" "input[type=\x27search\x27]" [pwVisible] ∧
    getElementsRun searchRetryPage "input.search" ≠ .elements [] 0 :=
  ⟨rfl, by decide⟩

/-- C7: with `visible_only` set, a present-but-invisible element is filtered
out by the `>> visible=1` suffix that `_selector_effective` appends, so
`ClickTool._run` reports the zero-match "not found" outcome; the
distinguishable "found but not visible" message in the code is unreachable
for such an element, contradicting the documented outcome taxonomy. -/
theorem click_invisible_not_found_bug :
    clickRun hiddenClickPage "#hidden" false false 0 true =
      ⟨"Element \x27#hidden\x27 not found", []⟩ ∧
    clickRun hiddenClickPage "#hidden" true false 0 true =
      ⟨"Element \x27#hidden\x27 not found", []⟩ ∧
    "Element \x27#hidden\x27 not found" ≠
      "Element \x27#hidden\x27 found but not visible. Use force=True to click it." :=
  ⟨rfl, rfl, by decide⟩

/-- C5 (amended): when the primary (non-forced) click on a resolved, visible
element times out, `ClickTool._run` returns the definitive
"element not clickable" failure immediately: it performs no attachment
re-verification and dispatches no synthetic click event. -/
theorem click_timeout_no_fallback (page : PwPage) (sel : String) (wt : Nat) (vo : Bool)
    (h1 : 0 < (queryEffective page sel vo).length)
    (h2 : ((queryEffective page sel vo).getD 0 defaultPwElement).visible = true)
    (h3 : ((queryEffective page sel vo).getD 0 defaultPwElement).actionable = false) :
    (clickRun page sel false false wt vo).message =
      "Unable to click element \x27" ++ sel ++ "\x27: element not clickable" ∧
    (clickRun page sel false false wt vo).trace =
      [.isVisibleCheck (selectorEffective sel vo) 0,
       .pageClick (selectorEffective sel vo) false] ∧
    (clickRun page sel false false wt vo).trace.countP (fun c => isDispatchCall c) = 0 := by
  have hlen : ((queryEffective page sel vo).length == 0) = false := by
    simp only [beq_eq_false_iff_ne, ne_eq]
    omega
  simp only [List.getD_eq_getElem?_getD] at h2 h3
  unfold clickRun
  simp [hlen, h2, h3, isDispatchCall]

/-- Witness for C5: a visible button covered by an overlay; the run ends in
the "not clickable" failure with exactly one click attempt and no synthetic
dispatch. -/
theorem click_timeout_no_fallback_witness :
    (clickRun stuckClickPage "#btn" false false 0 true).message =
      "Unable to click element \x27#btn\x27: element not clickable" ∧
    (clickRun stuckClickPage "#btn" false false 0 true).trace =
      [.isVisibleCheck ("#btn >> visible=1") 0, .pageClick ("#btn >> visible=1") false] ∧
    (clickRun stuckClickPage "#btn" false false 0 true).trace.countP
      (fun c => isDispatchCall c) = 0 :=
  click_timeout_no_fallback stuckClickPage "#btn" 0 true (by decide) rfl rfl

/-- Counterexample for C5 as stated: at a concrete timing-out click, the
trace holds the single failed click and no synthetic dispatch, and the
result is the definitive failure message — no fallback path exists in the
code. -/
theorem click_fallback_missing_cex :
    clickRun stuckClickPage "#btn" false false 0 true =
      ⟨"Unable to click element \x27#btn\x27: element not clickable",
       [.isVisibleCheck ("#btn >> visible=1") 0, .pageClick ("#btn >> visible=1") false]⟩ ∧
    (clickRun stuckClickPage "#btn" false false 0 true).trace.countP
      (fun c => isDispatchCall c) = 0 :=
  ⟨rfl, rfl⟩

/-! ## Claims about `dragndrop.py` -/

/-- Characterization of a drag run that reaches the drag step: the success
message, the atomic `drag_to` as last driver call, and a pointer-free
trace. -/
theorem dragRun_success_spec (page : PwPage) (src tgt : String)
    (sn tn : Option Nat) (vo : Bool)
    (hs : orZero sn < (page.query src).length)
    (ht : orZero tn < (page.query tgt).length)
    (hv1 : ((page.query src).getD (orZero sn) defaultPwElement).visible = true)
    (hv2 : ((page.query tgt).getD (orZero tn) defaultPwElement).visible = true) :
    (dragAndDropRun page src tgt sn tn vo).message = draggedMsg src sn tgt tn ∧
    (dragAndDropRun page src tgt sn tn vo).trace.getLast? =
      some (.dragTo src (orZero sn) tgt (orZero tn)) ∧
    (dragAndDropRun page src tgt sn tn vo).trace.countP (fun c => isPointerCall c) = 0 := by
  have hmemS : (page.query src).getD (orZero sn) defaultPwElement ∈ page.query src := by
    rw [List.getD_eq_getElem _ _ hs]
    exact List.getElem_mem hs
  have hmemT : (page.query tgt).getD (orZero tn) defaultPwElement ∈ page.query tgt := by
    rw [List.getD_eq_getElem _ _ ht]
    exact List.getElem_mem ht
  have hanyS : (page.query src).any (fun e => e.visible) = true :=
    List.any_eq_true.mpr ⟨_, hmemS, hv1⟩
  have hanyT : (page.query tgt).any (fun e => e.visible) = true :=
    List.any_eq_true.mpr ⟨_, hmemT, hv2⟩
  have hlenS : ((page.query src).length == 0) = false := by
    simp only [beq_eq_false_iff_ne, ne_eq]
    omega
  have hlenT : ((page.query tgt).length == 0) = false := by
    simp only [beq_eq_false_iff_ne, ne_eq]
    omega
  have hleS : ¬((page.query src).length ≤ orZero sn) := Nat.not_le.mpr hs
  have hleT : ¬((page.query tgt).length ≤ orZero tn) := Nat.not_le.mpr ht
  simp only [List.getD_eq_getElem?_getD] at hv1 hv2
  unfold dragAndDropRun
  cases vo <;>
    simp [hanyS, hanyT, hlenS, hlenT, hleS, hleT, hv1, hv2, isPointerCall,
      List.getLast?_concat]

/-- C3: every drag that reaches the drag step is issued as the single
driver-level `drag_to` call — the final driver call of the run — and the
run contains no pointer-path primitive (move/press/release); the four-step
move-press-move-release sequence of the claim is never used. -/
theorem dragAndDrop_atomic_drag (page : PwPage) (src tgt : String)
    (sn tn : Option Nat) (vo : Bool)
    (hs : orZero sn < (page.query src).length)
    (ht : orZero tn < (page.query tgt).length)
    (hv1 : ((page.query src).getD (orZero sn) defaultPwElement).visible = true)
    (hv2 : ((page.query tgt).getD (orZero tn) defaultPwElement).visible = true) :
    (dragAndDropRun page src tgt sn tn vo).message = draggedMsg src sn tgt tn ∧
    (dragAndDropRun page src tgt sn tn vo).trace.getLast? =
      some (.dragTo src (orZero sn) tgt (orZero tn)) ∧
    (dragAndDropRun page src tgt sn tn vo).trace.countP (fun c => isPointerCall c) = 0 :=
  dragRun_success_spec page src tgt sn tn vo hs ht hv1 hv2

/-- Witness for C3: a concrete successful drag ends in the atomic `drag_to`
driver call and issues no pointer-path primitive. -/
theorem dragAndDrop_atomic_drag_witness :
    (dragAndDropRun dragPage "#src" "#tgt" (some 0) (some 0) true).message =
      draggedMsg "#src" (some 0) "#tgt" (some 0) ∧
    (dragAndDropRun dragPage "#src" "#tgt" (some 0) (some 0) true).trace.getLast? =
      some (.dragTo "#src" 0 "#tgt" 0) ∧
    (dragAndDropRun dragPage "#src" "#tgt" (some 0) (some 0) true).trace.countP
      (fun c => isPointerCall c) = 0 :=
  dragAndDrop_atomic_drag dragPage "#src" "#tgt" (some 0) (some 0) true
    (by decide) (by decide) rfl rfl

/-- Counterexample for C3 as stated: the full driver trace of a concrete
drag is the scroll/visibility preparation followed by one `drag_to` — there
is no move-press-move-release pointer sequence anywhere in it. -/
theorem dragAndDrop_pointer_sequence_cex :
    (dragAndDropRun dragPage "#src" "#tgt" (some 0) (some 0) true).trace =
      [.waitForLoadState "load", .waitForSelector "#src", .waitForSelector "#tgt",
       .scrollIntoView "#src" 0, .scrollIntoView "#tgt" 0,
       .isVisibleCheck "#src" 0, .isVisibleCheck "#tgt" 0,
       .dragTo "#src" 0 "#tgt" 0] ∧
    (dragAndDropRun dragPage "#src" "#tgt" (some 0) (some 0) true).trace.countP
      (fun c => isPointerCall c) = 0 ∧
    (dragAndDropRun dragPage "#src" "#tgt" (some 0) (some 0) true).trace.countP
      (fun c => isDragToCall c) = 1 :=
  ⟨rfl, rfl, rfl⟩

/-- C4 (amended): with index `k` against `N` matches, the operations act on
the `k`-th match in document order when `k < N`; when `k ≥ N` (and the
selector wait passed because a visible match exists) the driver's
scroll-into-view on the out-of-range `nth` locator times out and the run
reports the Timeout outcome — not the zero-match NotFound outcome. -/
theorem resolveIndex_semantics (page : PwPage) (src tgt sel txt : String)
    (k kt : Nat) (vo : Bool) :
    (k < (page.query src).length →
     kt < (page.query tgt).length →
     ((page.query src).getD k defaultPwElement).visible = true →
     ((page.query tgt).getD kt defaultPwElement).visible = true →
     (dragAndDropRun page src tgt (some k) (some kt) true).message =
        draggedMsg src (some k) tgt (some kt) ∧
     (dragAndDropRun page src tgt (some k) (some kt) true).trace.getLast? =
        some (.dragTo src k tgt kt)) ∧
    ((page.query src).any (fun e => e.visible) = true →
     (page.query tgt).any (fun e => e.visible) = true →
     (page.query src).length ≤ k →
     (dragAndDropRun page src tgt (some k) (some kt) vo).message =
        dragTimeoutMsg src tgt) ∧
    ((page.query sel).any (fun e => e.visible) = true →
     (page.query sel).length ≤ k →
     (inputTextRun page sel txt (some k) vo).message =
        "Timeout waiting for element \x27" ++ sel ++ "\x27") := by
  refine ⟨fun hs hkt hv1 hv2 => ?_, fun hanyS hanyT hle => ?_, fun hany hle => ?_⟩
  · have h := dragRun_success_spec page src tgt (some k) (some kt) true hs hkt hv1 hv2
    exact ⟨h.1, h.2.1⟩
  · obtain ⟨x, hx, _⟩ := List.any_eq_true.mp hanyS
    have hpos : 0 < (page.query src).length :=
      List.length_pos.mpr (List.ne_nil_of_mem hx)
    have hlen : ((page.query src).length == 0) = false := by
      simp only [beq_eq_false_iff_ne, ne_eq]
      omega
    obtain ⟨y, hy, _⟩ := List.any_eq_true.mp hanyT
    have hlenT : ((page.query tgt).length == 0) = false := by
      have : 0 < (page.query tgt).length :=
        List.length_pos.mpr (List.ne_nil_of_mem hy)
      simp only [beq_eq_false_iff_ne, ne_eq]
      omega
    unfold dragAndDropRun
    simp [hanyS, hanyT, hlen, hlenT, hle, orZero]
  · obtain ⟨x, hx, _⟩ := List.any_eq_true.mp hany
    have hlen : ((page.query sel).length == 0) = false := by
      have : 0 < (page.query sel).length :=
        List.length_pos.mpr (List.ne_nil_of_mem hx)
      simp only [beq_eq_false_iff_ne, ne_eq]
      omega
    unfold inputTextRun
    simp [hany, hlen, hle, orZero]

/-- Witness for C4: against the two-match source selector, `source_nth = 1`
drags the second match (index 1 in document order); with `source_nth = 2`
the same page yields the Timeout outcome. -/
theorem resolveIndex_semantics_witness :
    ((dragAndDropRun dragPage "#src" "#tgt" (some 1) (some 0) true).message =
        draggedMsg "#src" (some 1) "#tgt" (some 0) ∧
     (dragAndDropRun dragPage "#src" "#tgt" (some 1) (some 0) true).trace.getLast? =
        some (.dragTo "#src" 1 "#tgt" 0)) ∧
    (dragAndDropRun dragPage "#src" "#tgt" (some 2) (some 0) true).message =
      dragTimeoutMsg "#src" "#tgt" ∧
    (inputTextRun dragPage "#src" "hello" (some 2) true).message =
      "Timeout waiting for element \x27#src\x27" :=
  ⟨(resolveIndex_semantics dragPage "#src" "#tgt" "#src" "hello" 1 0 true).1
      (by decide) (by decide) rfl rfl,
   (resolveIndex_semantics dragPage "#src" "#tgt" "#src" "hello" 2 0 true).2.1
      rfl rfl (by decide),
   (resolveIndex_semantics dragPage "#src" "#tgt" "#src" "hello" 2 0 true).2.2
      rfl (by decide)⟩

/-- Counterexample for C4 as stated: with `source_nth = 2` against two
matches, the run reports the Timeout outcome, not the NotFound
("No source element found") outcome the claim requires. -/
theorem resolveIndex_notfound_cex :
    (dragAndDropRun dragPage "#src" "#tgt" (some 2) (some 0) true).message =
      dragTimeoutMsg "#src" "#tgt" ∧
    (dragAndDropRun dragPage "#src" "#tgt" (some 2) (some 0) true).message ≠
      "No source element found for selector: #src" :=
  ⟨rfl, by decide⟩

/-! ## Claims about the extraction script -/

/-- `extractNode` never returns a bare truncation marker: markers are only
created inside a parent's children loop. -/
theorem extractNode_ne_truncated (w : Window) (n : DomNode) (d md : Nat) (m : Int) :
    extractNode w n d md ≠ some (.truncated m) := by
  cases n <;> simp only [extractNode] <;> split_ifs <;> simp

/-- Splitting a children list into marker and non-marker entries. -/
theorem countTrunc_add_countNonTrunc (l : List ExtractedNode) :
    l.length = countTrunc l + countNonTrunc l := by
  induction l with
  | nil => simp [countTrunc, countNonTrunc]
  | cons a l ih =>
    simp only [countTrunc, countNonTrunc, List.countP_cons, List.length_cons] at *
    cases h : isTruncMarker a <;> simp [h] <;> omega

/-- Invariant of the children loop of `extractNode`: starting from a count
`≤` the cap with at most `totalLen - count` children left, the loop emits at
most `cap - count` real entries and at most one truncation marker, and any
marker records exactly `totalLen - cap`, which is then strictly positive. -/
theorem extractChildren_spec (w : Window) (kids : List DomNode)
    (totalLen mc depth maxDepth : Nat) :
    ∀ count : Nat, count ≤ mc → count + kids.length ≤ totalLen →
    countNonTrunc (extractChildren w kids totalLen mc count depth maxDepth) + count ≤ mc ∧
    countTrunc (extractChildren w kids totalLen mc count depth maxDepth) ≤ 1 ∧
    (∀ m : Int,
      ExtractedNode.truncated m ∈ extractChildren w kids totalLen mc count depth maxDepth →
      m = (totalLen : Int) - (mc : Int) ∧ 0 < m) := by
  induction kids with
  | nil =>
    intro count h1 h2
    simp [extractChildren, countNonTrunc, countTrunc, h1]
  | cons k rest ih =>
    intro count h1 h2
    simp only [List.length_cons] at h2
    by_cases hc : count ≥ mc
    · have hcount : count = mc := le_antisymm h1 hc
      simp only [extractChildren, hc, if_true, if_pos]
      refine ⟨?_, ?_, ?_⟩
      · simp [countNonTrunc, isTruncMarker, h1]
      · simp [countTrunc, isTruncMarker]
      · intro m hm
        simp only [List.mem_singleton] at hm
        cases hm
        constructor
        · rfl
        · have : mc + 1 ≤ totalLen := by omega
          have : (mc : Int) + 1 ≤ (totalLen : Int) := by exact_mod_cast this
          omega
    · have hcf : ¬(count ≥ mc) := hc
      cases hex : extractNode w k (depth + 1) maxDepth with
      | none =>
        simp only [extractChildren, hcf, if_neg, if_false, hex]
        exact ih count h1 (by omega)
      | some r =>
        have hr : isTruncMarker r = false := by
          cases r with
          | truncated m => exact absurd hex (extractNode_ne_truncated w k (depth + 1) maxDepth m)
          | elem t a tx p i it sels ch => rfl
          | textFrag c => rfl
        obtain ⟨ihA, ihB, ihC⟩ := ih (count + 1) (by omega) (by omega)
        simp only [extractChildren, hcf, if_neg, if_false, hex]
        refine ⟨?_, ?_, ?_⟩
        · simp only [countNonTrunc, List.countP_cons, hr] at *
          simp only [Bool.not_false, if_true, if_pos]
          omega
        · simp only [countTrunc, List.countP_cons, hr] at *
          simpa using ihB
        · intro m hm
          rcases List.mem_cons.mp hm with hm | hm
          · rw [← hm] at hr
            simp [isTruncMarker] at hr
          · exact ihC m hm

/-- An element summary returned by `extractNode` has its children produced
by the capped children loop of its own depth. -/
theorem extractNode_elem_children (w : Window) (node : DomNode) (depth maxDepth : Nat)
    (t : String) (a : List (String × AttrVal)) (tx : Option String)
    (p : Option Position) (i : Bool) (it : Option String) (sels : List String)
    (ch : List ExtractedNode)
    (h : extractNode w node depth maxDepth = some (.elem t a tx p i it sels ch)) :
    ∃ data kids, node = DomNode.element data kids ∧ kids.length = domChildCount node ∧
      ch = extractChildren w kids kids.length (childCap depth) 0 depth maxDepth := by
  cases node with
  | text c =>
    exfalso
    revert h
    simp only [extractNode]
    split_ifs <;> simp
  | other =>
    exfalso
    revert h
    simp only [extractNode]
    split_ifs <;> simp
  | element data kids =>
    refine ⟨data, kids, rfl, rfl, ?_⟩
    revert h
    simp only [extractNode]
    split_ifs <;> simp <;> intro _ _ _ _ _ _ _ hch <;> exact hch.symm

/-- C1 (amended): in every element summary of an extracted tree, at most
`childCap depth` real child entries appear, at most one truncation marker
appears (so the `children` list has at most `cap + 1` entries, not `cap`),
and any marker records exactly `childNodes.length - cap` — strictly
positive, but equal to the number of omitted children only when no earlier
child was skipped; when skipped children keep the loop's counter below the
cap, no marker is emitted even though the DOM node has more children than
the cap (see the counterexample). -/
theorem extractNode_children_cap_marker (w : Window) (node : DomNode)
    (depth maxDepth : Nat) (t : String) (a : List (String × AttrVal))
    (tx : Option String) (p : Option Position) (i : Bool) (it : Option String)
    (sels : List String) (ch : List ExtractedNode)
    (h : extractNode w node depth maxDepth = some (.elem t a tx p i it sels ch)) :
    countNonTrunc ch ≤ childCap depth ∧
    countTrunc ch ≤ 1 ∧
    ch.length ≤ childCap depth + 1 ∧
    ∀ m : Int, ExtractedNode.truncated m ∈ ch →
      m = (domChildCount node : Int) - (childCap depth : Int) ∧ 0 < m := by
  obtain ⟨data, kids, hnode, hlen, hch⟩ :=
    extractNode_elem_children w node depth maxDepth t a tx p i it sels ch h
  subst hch
  obtain ⟨hA, hB, hC⟩ :=
    extractChildren_spec w kids kids.length (childCap depth) depth maxDepth 0
      (Nat.zero_le _) (by omega)
  refine ⟨by omega, hB, ?_, ?_⟩
  · have hsplit :=
      countTrunc_add_countNonTrunc
        (extractChildren w kids kids.length (childCap depth) 0 depth maxDepth)
    omega
  · intro m hm
    obtain ⟨hm1, hm2⟩ := hC m hm
    rw [← hlen]
    exact ⟨hm1, hm2⟩

/-- Witness for C1: the amended bounds hold at a concrete extraction. -/
theorem extractNode_children_cap_marker_witness :
    countNonTrunc [] ≤ childCap 0 ∧
    countTrunc [] ≤ 1 ∧
    ([] : List ExtractedNode).length ≤ childCap 0 + 1 ∧
    ∀ m : Int, ExtractedNode.truncated m ∈ ([] : List ExtractedNode) →
      m = (domChildCount (.element (plainVisible "body") []) : Int) -
            (childCap 0 : Int) ∧ 0 < m :=
  extractNode_children_cap_marker win0 (.element (plainVisible "body") []) 0 4
    "body" [] none (some ⟨0, 0, 200, 100, true⟩) false none [] [] rfl

/-- Counterexample for C1 as stated: a `section` at depth 3 (cap 10) with 11
child nodes, all of which the extractor skips — its extracted `children`
list is empty: no truncation marker is emitted although the underlying DOM
node has more children than the cap. -/
theorem extractNode_marker_missing_cex :
    extractNode win0 sectionWithElevenTextKids 3 4 =
      some (.elem "section" [] none none false none [] []) ∧
    domChildCount sectionWithElevenTextKids = 11 ∧
    childCap 3 = 10 :=
  ⟨rfl, rfl, rfl⟩

/-- An attribute that `getAttribute` resolves is present for
`hasAttribute`. -/
theorem hasAttr_of_getAttr (attrs : List (String × String)) (name r : String)
    (h : getAttr attrs name = some r) : hasAttr attrs name = true := by
  unfold getAttr at h
  cases hf : attrs.find? (fun p => p.1 == name) with
  | none => rw [hf] at h; simp at h
  | some pr =>
    have hp : (fun p => p.1 == name) pr = true :=
      @List.find?_some _ (fun p => p.1 == name) pr attrs hf
    exact List.any_eq_true.mpr ⟨pr, List.mem_of_find?_eq_some hf, hp⟩

/-- C2 (amended): a landmark element that the traversal actually visits is
never pruned by the visibility gate: any element whose lower-cased tag is a
landmark tag, or whose ARIA role is a landmark role — provided its tag is
not in the unconditional `depth > 1` skip list — is extracted whenever its
depth is within `maxDepth`.  The claim's unconditional form fails: a
landmark buried under a pruned ancestor is never visited (see the
counterexample), and the depth gate and sibling cap can also drop it. -/
theorem extractNode_landmark_retained (w : Window) (data : ElementData)
    (kids : List DomNode) (depth maxDepth : Nat)
    (hd : depth ≤ maxDepth)
    (hl : landmarkTags.contains (strLower data.tagName) = true ∨
          (match getAttr data.attrs "role" with
           | some r => landmarkRoles.contains r
           | none => false) = true)
    (hs : deepSkipTags.contains (strLower data.tagName) = false) :
    (extractNode w (.element data kids) depth maxDepth).isSome = true := by
  have hnd : ¬(depth > maxDepth) := by omega
  have hs2 : strLower data.tagName ∉ deepSkipTags := by simpa using hs
  rcases hl with hlt | hlr
  · have htag : strLower data.tagName = "header" ∨ strLower data.tagName = "nav" ∨
        strLower data.tagName = "footer" ∨ strLower data.tagName = "main" := by
      simpa [landmarkTags] using hlt
    simp only [extractNode, if_neg hnd]
    rcases htag with h | h | h | h <;>
      simp [h, landmarkTags, deepSkipTags]
  · cases hm : getAttr data.attrs "role" with
    | none => rw [hm] at hlr; simp at hlr
    | some r =>
      rw [hm] at hlr
      simp only [] at hlr
      have hint : isInteractive (.element data kids) = true := by
        have hattr : hasAttr data.attrs "role" = true := hasAttr_of_getAttr _ _ _ hm
        simp [isInteractive, interactiveAttrs, hattr]
      simp only [extractNode, if_neg hnd]
      simp [hint, hm, hlr, hs2]

/-- Witness for C2: a hidden (`display:none`) `footer` at depth 2 is still
extracted. -/
theorem extractNode_landmark_retained_witness :
    (extractNode win0 (.element (plainHidden "footer") []) 2 4).isSome = true :=
  extractNode_landmark_retained win0 (plainHidden "footer") [] 2 4
    (by decide) (Or.inl rfl) rfl

/-- Counterexample for C2 as stated: the document contains a `footer`
landmark, but it sits inside a hidden `div` that the traversal prunes, so
the snapshot tree contains no `footer` at all. -/
theorem extractNode_landmark_pruned_cex :
    domHasTag "footer" bodyWithBuriedFooter = true ∧
    extractNode win0 bodyWithBuriedFooter 0 4 =
      some (.elem "body" [] none (some ⟨0, 0, 200, 100, true⟩) false none [] []) ∧
    treeHasTag "footer"
      (.elem "body" [] none (some ⟨0, 0, 200, 100, true⟩) false none [] []) = false :=
  ⟨rfl, rfl, rfl⟩
